import Mathlib

/-!
Shallow embedding of the Azimuth bytecode virtual machine core
(`src/engine/stack.rs`, `src/engine/opcode_handler.rs`, `src/engine/mod.rs`,
`src/loader/parser.rs`, `src/loader/constant_table.rs`,
`src/memory/allocators/general.rs`), together with theorems settling the
frozen specification claims.

Modelling conventions, fixed once for the whole file:
* `u64` stack entries are natural numbers; where the Rust code wraps (release
  profile semantics) the embedding applies `% 2 ^ 64`.  Theorems whose truth
  would depend on the debug/release overflow split carry hypotheses keeping
  them inside the profile-independent domain.
* byte slices are `List Nat` whose elements are below `256`;
* Rust computations that can `panic!` (failed `assert!`, out-of-bounds
  indexing, division by zero, `expect`) return through the `Panics` sum so
  that an abort is an observable outcome, distinct from a returned error;
* `f32`/`f64` values are represented by their IEEE-754 bit patterns (the only
  observable the claims mention); the actual float arithmetic of the `f4.*` /
  `f8.*` handlers is abstracted into a `FloatOps` record of bit-pattern
  functions that theorems quantify over.
-/

namespace Azimuth

/-- Outcome of a Rust computation that may abort: either a returned value or a
`panic!` (also used for failed `assert!`, out-of-range slice indexing and the
arithmetic divide-by-zero panic). -/
inductive Panics (α : Type) : Type
  | ok (val : α) : Panics α
  | panic (msg : String) : Panics α
  deriving DecidableEq

/-- `StackEntry = u64` (engine/stack.rs line 4): entries are 64-bit words,
modelled as naturals below `2 ^ 64`. -/
abbrev StackEntry := Nat

/-- `Stack` (engine/stack.rs): the backing vector for operand stacks and
locals. -/
structure Stack where
  stack : List StackEntry
  deriving DecidableEq

/-- `Stack::ENTRY_SIZE = size_of::<StackEntry>() = 8`. -/
def Stack.ENTRY_SIZE : Nat := 8

/-- `Stack::new(capacity)`: a zero-initialised vector of `capacity` entries. -/
def Stack.new (capacity : Nat) : Stack :=
  ⟨List.replicate capacity 0⟩

/-- `StackFrame` (engine/stack.rs lines 75-96).  `store` is the contents of
the origin stack's backing vector. -/
structure StackFrame where
  store : List StackEntry
  locals_base : Nat
  stack_base : Nat
  stack_pointer : Nat
  size : Nat
  deriving DecidableEq

/-- `Stack::initial_frame` (engine/stack.rs lines 46-50): a frame anchored at
index 0 with `stack_base = locals_size` and `size = locals_size + stack_size`,
created only when it fits in the backing vector. -/
def Stack.initial_frame (s : Stack) (locals_size stack_size : Nat) : Option StackFrame :=
  if locals_size + stack_size ≤ s.stack.length then
    some ⟨s.stack, 0, locals_size, 0, locals_size + stack_size⟩
  else none

/-- `StackFrame::push` (engine/stack.rs lines 142-150).  The source's overflow
check is `if self.stack_pointer > self.size { return false; }` — note `>`,
not `≥` — after which it writes `self.origin.stack[self.stack_base +
self.stack_pointer]` (a `Vec` index that panics when out of range) and
increments the stack pointer. -/
def StackFrame.push (f : StackFrame) (value : StackEntry) : Panics (Bool × StackFrame) :=
  if f.stack_pointer > f.size then .ok (false, f)
  else if f.stack_base + f.stack_pointer < f.store.length then
    .ok (true, { f with
      store := f.store.set (f.stack_base + f.stack_pointer) value,
      stack_pointer := f.stack_pointer + 1 })
  else .panic "index out of bounds"

/-- `StackFrame::pop` (engine/stack.rs lines 157-163): when `stack_pointer >
0`, decrement it and read `stack[stack_base + stack_pointer]` (the slot just
below the old pointer). -/
def StackFrame.pop (f : StackFrame) : Panics (Option (StackEntry × StackFrame)) :=
  if f.stack_pointer > 0 then
    if f.stack_base + (f.stack_pointer - 1) < f.store.length then
      .ok (some (f.store.getD (f.stack_base + (f.stack_pointer - 1)) 0,
        { f with stack_pointer := f.stack_pointer - 1 }))
    else .panic "index out of bounds"
  else .ok none

/-- `StackFrame::peek` (engine/stack.rs lines 170-173).  The source reads
`stack[stack_base + stack_pointer]` with no `- 1`: the slot one above the
topmost live entry. -/
def StackFrame.peek (f : StackFrame) : Panics (Option StackEntry) :=
  if f.stack_pointer > 0 then
    if f.stack_base + f.stack_pointer < f.store.length then
      .ok (some (f.store.getD (f.stack_base + f.stack_pointer) 0))
    else .panic "index out of bounds"
  else .ok none

/-- `StackFrame::get_local` (engine/stack.rs lines 179-185): bound check
`locals_base + index < stack_base + size`, then a `Vec` index. -/
def StackFrame.get_local (f : StackFrame) (index : Nat) : Panics (Option StackEntry) :=
  let idx := f.locals_base + index
  if idx < f.stack_base + f.size then
    if idx < f.store.length then .ok (some (f.store.getD idx 0))
    else .panic "index out of bounds"
  else .ok none

/-- `StackFrame::set_local` (engine/stack.rs lines 192-201): same bound as
`get_local`; returns the previous value. -/
def StackFrame.set_local (f : StackFrame) (index : Nat) (value : StackEntry) :
    Panics (Option (StackEntry × StackFrame)) :=
  let idx := f.locals_base + index
  if idx < f.stack_base + f.size then
    if idx < f.store.length then
      .ok (some (f.store.getD idx 0, { f with store := f.store.set idx value }))
    else .panic "index out of bounds"
  else .ok none

/-- The value at the top of a frame's operand stack: the slot `pop` would
read, at index `stack_base + stack_pointer - 1`. -/
def StackFrame.topValue (f : StackFrame) : Nat :=
  f.store.getD (f.stack_base + (f.stack_pointer - 1)) 0

/-! ### Stackable conversions (engine/stack/stackable.rs)

`u64` is the identity; `i64` reads the word as two's complement; `f32`
truncates to the low 32 bits of the word (`from_bits(entry as u32)`) and
zero-extends its bit pattern back (`StackEntry::from(self.to_bits())`). -/

/-- Two's-complement reading of a 64-bit word (Stackable for `i64`,
`from_entry`). -/
def toI64 (v : Nat) : Int :=
  if v < 2 ^ 63 then (v : Int) else (v : Int) - 2 ^ 64

/-- Two's-complement storing of an `i64` into a 64-bit word (Stackable for
`i64`, `into_entry`). -/
def fromI64 (x : Int) : Nat :=
  (x % 2 ^ 64).toNat

/-! ### Integer arithmetic of the handlers (opcode_handler.rs HANDLERS array)

The `i.*`, shift and bitwise entries instantiate `binop`/`unaryop` at `u64`
(or `i64` for `i.neg`/`ashr`) with the plain Rust operators.  Division and
remainder by zero panic in every profile; the other operators are embedded
with wrapping (release-profile) semantics, and theorems that need
profile-independence restrict their domain by hypothesis. -/

/-- `<u64>::add` (wrapping form). -/
def iaddOp (a b : Nat) : Panics Nat := .ok ((a + b) % 2 ^ 64)

/-- `<u64>::sub` (wrapping form): `a - b` modulo `2 ^ 64`. -/
def isubOp (a b : Nat) : Panics Nat := .ok ((a + 2 ^ 64 - b) % 2 ^ 64)

/-- `<u64>::mul` (wrapping form). -/
def imulOp (a b : Nat) : Panics Nat := .ok (a * b % 2 ^ 64)

/-- `<u64>::div`: Rust panics on a zero divisor in every build profile. -/
def idivOp (a b : Nat) : Panics Nat :=
  if b = 0 then .panic "attempt to divide by zero" else .ok (a / b)

/-- `<u64>::rem`: Rust panics on a zero divisor in every build profile. -/
def iremOp (a b : Nat) : Panics Nat :=
  if b = 0 then .panic "attempt to calculate the remainder with a divisor of zero"
  else .ok (a % b)

/-- `<i64>::neg` through the Stackable round-trip (wrapping form). -/
def inegOp (a : Nat) : Nat := fromI64 (-(toI64 a))

/-- `<u64>::shl` (release form: the shift amount is masked modulo 64). -/
def shlOp (a b : Nat) : Panics Nat := .ok ((a <<< (b % 64)) % 2 ^ 64)

/-- `<u64>::shr` (release form: the shift amount is masked modulo 64). -/
def shrOp (a b : Nat) : Panics Nat := .ok (a >>> (b % 64))

/-- `<i64>::shr` through the Stackable round-trip: arithmetic shift right,
i.e. floor division of the two's-complement value by `2 ^ shift`. -/
def ashrOp (a b : Nat) : Panics Nat := .ok (fromI64 (Int.fdiv (toI64 a) (2 ^ (b % 64))))

/-- `<u64>::bitand`. -/
def andOp (a b : Nat) : Panics Nat := .ok (a &&& b)

/-- `<u64>::bitor`. -/
def orOp (a b : Nat) : Panics Nat := .ok (a ||| b)

/-- `<u64>::bitxor`. -/
def xorOp (a b : Nat) : Panics Nat := .ok (a ^^^ b)

/-- `<u64>::not`: bitwise complement of a 64-bit word. -/
def notOp (a : Nat) : Nat := (2 ^ 64 - 1) - a

/-- IEEE-754 arithmetic of the float handlers, abstracted as functions on bit
patterns: `f4*` consume and produce `f32` bit patterns, `f8*` consume and
produce `f64` bit patterns.  The embedding never fixes these functions —
theorems about float opcodes quantify over them, which is exactly the
information the claims use (operand order and bit-level plumbing). -/
structure FloatOps where
  f4add : Nat → Nat → Nat
  f4sub : Nat → Nat → Nat
  f4mul : Nat → Nat → Nat
  f4div : Nat → Nat → Nat
  f4rem : Nat → Nat → Nat
  f8add : Nat → Nat → Nat
  f8sub : Nat → Nat → Nat
  f8mul : Nat → Nat → Nat
  f8div : Nat → Nat → Nat
  f8rem : Nat → Nat → Nat
  f4neg : Nat → Nat
  f8neg : Nat → Nat

/-- Placeholder instance used to evaluate theorems at concrete inputs that
never reach a float handler. -/
def zeroFloatOps : FloatOps :=
  ⟨fun _ _ => 0, fun _ _ => 0, fun _ _ => 0, fun _ _ => 0, fun _ _ => 0,
   fun _ _ => 0, fun _ _ => 0, fun _ _ => 0, fun _ _ => 0, fun _ _ => 0,
   fun _ => 0, fun _ => 0⟩

/-- Stackable round-trip of a binary `f32` handler: `from_entry` truncates
each word to its low 32 bits, the operation runs on `f32`, and `into_entry`
zero-extends the 32-bit result pattern. -/
def f4bin (op : Nat → Nat → Nat) (a b : Nat) : Panics Nat :=
  .ok (op (a % 2 ^ 32) (b % 2 ^ 32) % 2 ^ 32)

/-- Stackable round-trip of a binary `f64` handler. -/
def f8bin (op : Nat → Nat → Nat) (a b : Nat) : Panics Nat :=
  .ok (op a b % 2 ^ 64)

/-- Stackable round-trip of a unary `f32` handler. -/
def f4un (op : Nat → Nat) (a : Nat) : Nat := op (a % 2 ^ 32) % 2 ^ 32

/-- Stackable round-trip of a unary `f64` handler. -/
def f8un (op : Nat → Nat) (a : Nat) : Nat := op a % 2 ^ 64

/-! ### Constant table (loader/constant_table.rs) -/

/-- `Constant` (constant_table.rs lines 42-49).  Floats are carried by their
IEEE-754 bit patterns (`f32::to_bits` / `f64::to_bits` are bit-identities on
these representations); a string constant is observable on the stack only
through its address (`as_ptr() as u64`), carried here directly. -/
inductive Constant where
  | unsigned32 (x : Nat)
  | unsigned64 (x : Nat)
  | float32 (bits : Nat)
  | float64 (bits : Nat)
  | string (ptr : Nat)
  deriving DecidableEq

/-- `ConstantTable` (constant_table.rs lines 11-15). -/
structure ConstantTable where
  entries : List Constant
  deriving DecidableEq

/-- `ConstantTable::get_entry` (constant_table.rs lines 75-78). -/
def ConstantTable.get_entry (t : ConstantTable) (index : Nat) : Option Constant :=
  t.entries[index]?

/-- `ConstantTable::push_entry` (constant_table.rs lines 82-95): look the
constant up and push its 64-bit stack encoding (`u32` and `f32` bit patterns
zero-extend; `u64` and `f64` bit patterns push unchanged; strings push their
address). -/
def ConstantTable.push_entry (t : ConstantTable) (stack : StackFrame) (index : Nat) :
    Panics (Option (Bool × StackFrame)) :=
  match t.get_entry index with
  | none => .ok none
  | some c =>
    match (match c with
      | .unsigned32 x => stack.push x
      | .unsigned64 x => stack.push x
      | .float32 bits => stack.push bits
      | .float64 bits => stack.push bits
      | .string ptr => stack.push ptr) with
    | .ok (b, f) => .ok (some (b, f))
    | .panic m => .panic m

/-! ### Opcode dispatch (engine/opcode_handler.rs)

The `Opcode` enum (engine/opcodes.rs) assigns `Nop = 0` through `Not = 51`
consecutively, then `Directive = 254` and `Unimplemented = 255`.  The
`HANDLERS` array has 256 entries: indices 0-51 carry the assigned opcodes in
order, indices 52-253 carry `Unimplemented` entries (whose `opcode` field is
therefore 255), index 254 carries the `Directive` entry and index 255 a final
`Unimplemented` entry. -/

/-- The `opcode` field of `HANDLERS[b]` (opcode_handler.rs lines 333-590). -/
def expectedOpcode (b : Nat) : Nat :=
  if b ≤ 51 then b else if b = 254 then 254 else 255

/-- The `param_count` field of `HANDLERS[b]`: 1 for `i.const` (9), 2 for
`i.const.w` (10), 4 for `const` (11), 1 for `ld.arg` (16) and `st.arg` (21),
0 everywhere else. -/
def paramCount (b : Nat) : Nat :=
  if b = 9 then 1
  else if b = 10 then 2
  else if b = 11 then 4
  else if b = 16 then 1
  else if b = 21 then 1
  else 0

/-- `InstructionResult` (opcode_handler.rs lines 101-107). -/
inductive InstructionResult where
  | next
  | jump (target : Nat)
  | ret (hasValue : Bool)
  deriving DecidableEq

/-- `ExecutionError` (opcode_handler.rs lines 109-119). -/
inductive ExecutionError where
  | opcodeNotFound
  | illegalOpcode
  | missingParams
  | illegalParam
  | emptyStack
  | stackOverflow
  | indexOutOfBounds
  deriving DecidableEq

/-- Result of `exec_instruction`: a returned `Ok`/`Err` (the frame reflects
any mutations made before returning) or a process abort. -/
inductive ExecResult where
  | ok (r : InstructionResult) (frame : StackFrame)
  | err (e : ExecutionError) (frame : StackFrame)
  | panic (msg : String)
  deriving DecidableEq

/-- Little-endian value of a byte list (`from_le_bytes`). -/
def leNat (bytes : List Nat) : Nat :=
  bytes.foldr (fun b acc => b + 256 * acc) 0

/-- `push_numeric` (opcode_handler.rs lines 180-185):
`stack_push(value).map(|_| Next)` where a failed push is `StackOverflow`. -/
def push_numeric (frame : StackFrame) (value : Nat) : ExecResult :=
  match frame.push value with
  | .ok (true, f) => .ok .next f
  | .ok (false, f) => .err .stackOverflow f
  | .panic m => .panic m

/-- `push_bytes` (opcode_handler.rs lines 190-201).  The source guard is
`if input.params.len() <= Stack::ENTRY_SIZE { return Err(IllegalParam) }`
— the comparison is inverted relative to its own doc comment — and in the
remaining case (`params.len() > 8`) the copy `bytes[0..params.len()]` into an
8-byte array panics.  The push below the guard is unreachable. -/
def push_bytes (params : List Nat) (frame : StackFrame) : ExecResult :=
  if params.length ≤ Stack.ENTRY_SIZE then .err .illegalParam frame
  else .panic "range end index out of range"

/-- `push_constant` (opcode_handler.rs lines 204-219): read a 4-byte
little-endian index from the parameters and defer to
`ConstantTable::push_entry`. -/
def push_constant (params : List Nat) (frame : StackFrame) (constants : ConstantTable) :
    ExecResult :=
  if params.length < 4 then .err .missingParams frame
  else
    let index := leNat (params.take 4)
    match constants.push_entry frame index with
    | .ok none => .err .indexOutOfBounds frame
    | .ok (some (true, f)) => .ok .next f
    | .ok (some (false, f)) => .err .stackOverflow f
    | .panic m => .panic m

/-- `pop` handler (opcode_handler.rs lines 225-229). -/
def popHandler (frame : StackFrame) : ExecResult :=
  match frame.pop with
  | .ok (some (_, f)) => .ok .next f
  | .ok none => .err .emptyStack frame
  | .panic m => .panic m

/-- `dup` handler (opcode_handler.rs lines 232-236): peek, then push the
peeked value. -/
def dupHandler (frame : StackFrame) : ExecResult :=
  match frame.peek with
  | .ok (some v) => push_numeric frame v
  | .ok none => .err .emptyStack frame
  | .panic m => .panic m

/-- `swap` handler (opcode_handler.rs lines 239-247). -/
def swapHandler (frame : StackFrame) : ExecResult :=
  match frame.pop with
  | .ok (some (v1, f1)) =>
    match f1.pop with
    | .ok (some (v2, f2)) =>
      match f2.push v1 with
      | .ok (true, f3) =>
        match f3.push v2 with
        | .ok (true, f4) => .ok .next f4
        | .ok (false, f4) => .err .stackOverflow f4
        | .panic m => .panic m
      | .ok (false, f3) => .err .stackOverflow f3
      | .panic m => .panic m
    | .ok none => .err .emptyStack f1
    | .panic m => .panic m
  | .ok none => .err .emptyStack frame
  | .panic m => .panic m

/-- `load_local` handler (opcode_handler.rs lines 252-257). -/
def load_local (frame : StackFrame) (index : Nat) : ExecResult :=
  match frame.get_local index with
  | .ok (some v) => push_numeric frame v
  | .ok none => .err .indexOutOfBounds frame
  | .panic m => .panic m

/-- `store_local` handler (opcode_handler.rs lines 260-265): pop, then write
the local. -/
def store_local (frame : StackFrame) (index : Nat) : ExecResult :=
  match frame.pop with
  | .ok (some (v, f1)) =>
    match f1.set_local index v with
    | .ok (some (_, f2)) => .ok .next f2
    | .ok none => .err .indexOutOfBounds f1
    | .panic m => .panic m
  | .ok none => .err .emptyStack frame
  | .panic m => .panic m

/-- `binop` (opcode_handler.rs lines 279-287): `stack_pop_many::<2>` pops
`value1` (the old top of stack) first and `value2` second, then pushes
`op(value1, value2)`. -/
def binopHandler (op : Nat → Nat → Panics Nat) (frame : StackFrame) : ExecResult :=
  match frame.pop with
  | .ok (some (v1, f1)) =>
    match f1.pop with
    | .ok (some (v2, f2)) =>
      match op v1 v2 with
      | .ok r =>
        match f2.push r with
        | .ok (true, f3) => .ok .next f3
        | .ok (false, f3) => .err .stackOverflow f3
        | .panic m => .panic m
      | .panic m => .panic m
    | .ok none => .err .emptyStack f1
    | .panic m => .panic m
  | .ok none => .err .emptyStack frame
  | .panic m => .panic m

/-- `unaryop` (opcode_handler.rs lines 269-277). -/
def unaryHandler (op : Nat → Nat) (frame : StackFrame) : ExecResult :=
  match frame.pop with
  | .ok (some (v, f1)) => push_numeric f1 (op v)
  | .ok none => .err .emptyStack frame
  | .panic m => .panic m

/-- `exec_instruction` (opcode_handler.rs lines 133-163).  The checks happen
in source order: empty stream → `OpcodeNotFound`; table lookup (only an
opcode value ≥ 256 could miss the 256-entry table) → `IllegalOpcode`;
`operands.len() < param_count` → `MissingParams`; the
`assert!(opcode == handler_info.opcode)` self-check — which fails for every
byte in 52..=253, whose `Unimplemented` entries carry opcode field 255; then
the handler, which receives the whole remaining stream as `params`
(`params: operands`, line 159, not a `param_count`-byte prefix). -/
def exec_instruction (fops : FloatOps) (bytecode : List Nat) (frame : StackFrame)
    (constants : ConstantTable) : ExecResult :=
  match bytecode with
  | [] => .err .opcodeNotFound frame
  | opcode :: operands =>
    if 256 ≤ opcode then .err .illegalOpcode frame
    else if operands.length < paramCount opcode then .err .missingParams frame
    else if opcode ≠ expectedOpcode opcode then
      .panic "HANDLERS Array invalid: misaligned opcode"
    else
      match opcode with
      | 0 => .ok .next frame
      | 1 => push_numeric frame 0
      | 2 => push_numeric frame 1
      | 3 => push_numeric frame 2
      | 4 => push_numeric frame 3
      | 5 => push_numeric frame 0
      | 6 => push_numeric frame 0x3F800000
      | 7 => push_numeric frame 0
      | 8 => push_numeric frame 0x3FF0000000000000
      | 9 => push_bytes operands frame
      | 10 => push_bytes operands frame
      | 11 => push_constant operands frame constants
      | 12 => load_local frame 0
      | 13 => load_local frame 1
      | 14 => load_local frame 2
      | 15 => load_local frame 3
      | 16 =>
        if operands.length < 1 then .err .missingParams frame
        else load_local frame (operands.getD 0 0)
      | 17 => store_local frame 0
      | 18 => store_local frame 1
      | 19 => store_local frame 2
      | 20 => store_local frame 3
      | 21 =>
        if operands.length < 1 then .err .missingParams frame
        else store_local frame (operands.getD 0 0)
      | 22 => popHandler frame
      | 23 => dupHandler frame
      | 24 => swapHandler frame
      | 25 => .ok (.ret false) frame
      | 26 => .ok (.ret true) frame
      | 27 => binopHandler iaddOp frame
      | 28 => binopHandler (f4bin fops.f4add) frame
      | 29 => binopHandler (f8bin fops.f8add) frame
      | 30 => binopHandler isubOp frame
      | 31 => binopHandler (f4bin fops.f4sub) frame
      | 32 => binopHandler (f8bin fops.f8sub) frame
      | 33 => binopHandler imulOp frame
      | 34 => binopHandler (f4bin fops.f4mul) frame
      | 35 => binopHandler (f8bin fops.f8mul) frame
      | 36 => binopHandler idivOp frame
      | 37 => binopHandler (f4bin fops.f4div) frame
      | 38 => binopHandler (f8bin fops.f8div) frame
      | 39 => binopHandler iremOp frame
      | 40 => binopHandler (f4bin fops.f4rem) frame
      | 41 => binopHandler (f8bin fops.f8rem) frame
      | 42 => unaryHandler inegOp frame
      | 43 => unaryHandler (f4un fops.f4neg) frame
      | 44 => unaryHandler (f8un fops.f8neg) frame
      | 45 => binopHandler shlOp frame
      | 46 => binopHandler shrOp frame
      | 47 => binopHandler ashrOp frame
      | 48 => binopHandler andOp frame
      | 49 => binopHandler orOp frame
      | 50 => binopHandler xorOp frame
      | 51 => unaryHandler notOp frame
      | _ => .panic "Opcode not implemented"

/-! ### Runner (engine/mod.rs) -/

/-- `RunnerError` (engine/mod.rs lines 13-20). -/
inductive RunnerError where
  | missingEntryPoint
  | stackOverflow
  | executionError (e : ExecutionError)
  | programCounterOverflow
  deriving DecidableEq

/-- Outcome of the Runner's loop; `outOfFuel` is the embedding device for a
run that has not finished within the given step budget. -/
inductive RunResult where
  | ok (frame : StackFrame)
  | err (e : RunnerError)
  | panic (msg : String)
  | outOfFuel (pc : Nat) (frame : StackFrame)
  deriving DecidableEq

/-- The fetch-decode-execute loop of `Runner::run` (engine/mod.rs lines
57-84): execute `code[pc..]`; on `Next`, advance the program counter by
exactly 1 when `pc + 1 < code.len()` and fail with `ProgramCounterOverflow`
otherwise; on `Jump(t)`, move to `t` when `t < code.len()`; on `Return(_)`,
stop successfully. -/
def runLoop (fops : FloatOps) (code : List Nat) (constants : ConstantTable) :
    Nat → Nat → StackFrame → RunResult
  | 0, pc, frame => .outOfFuel pc frame
  | fuel + 1, pc, frame =>
    match exec_instruction fops (code.drop pc) frame constants with
    | .err e _ => .err (.executionError e)
    | .panic m => .panic m
    | .ok .next f =>
      if pc + 1 < code.length then runLoop fops code constants fuel (pc + 1) f
      else .err .programCounterOverflow
    | .ok (.jump target) f =>
      if target < code.length then runLoop fops code constants fuel target f
      else .err .programCounterOverflow
    | .ok (.ret _) f => .ok f

/-! ### Binary image parser (loader/parser.rs) -/

/-- `MAGIC_STRING = b"azimuth\0"` (parser.rs line 3). -/
def MAGIC_STRING : List Nat := [0x61, 0x7A, 0x69, 0x6D, 0x75, 0x74, 0x68, 0x00]

/-- `MAGIC_NUMBER = u64::from_le_bytes(*MAGIC_STRING)` (parser.rs line 4). -/
def MAGIC_NUMBER : Nat := leNat MAGIC_STRING

/-- `TableEntry` (parser.rs lines 91-99).  Floats are carried as their bit
patterns (the payload bytes are fed through `from_bits`, a bit-identity);
a parsed `String` is kept as its UTF-8 bytes. -/
inductive TableEntry where
  | integer (x : Nat)
  | long (x : Nat)
  | float (bits : Nat)
  | double (bits : Nat)
  | string (bytes : List Nat)
  deriving DecidableEq

/-- Continuation-byte test of the UTF-8 format: `0x80 ≤ b < 0xC0`. -/
def isUtf8Cont (b : Nat) : Bool :=
  decide (0x80 ≤ b) && decide (b < 0xC0)

/-- Validity of a byte sequence as UTF-8 (RFC 3629), the check performed by
`String::from_utf8` in the tag-4 table handler (parser.rs line 111). -/
def isValidUtf8 : List Nat → Bool
  | [] => true
  | b :: rest =>
    if b < 0x80 then isValidUtf8 rest
    else if 0xC2 ≤ b ∧ b ≤ 0xDF then
      match rest with
      | c1 :: r => isUtf8Cont c1 && isValidUtf8 r
      | _ => false
    else if b = 0xE0 then
      match rest with
      | c1 :: c2 :: r =>
        (decide (0xA0 ≤ c1) && decide (c1 < 0xC0)) && isUtf8Cont c2 && isValidUtf8 r
      | _ => false
    else if (0xE1 ≤ b ∧ b ≤ 0xEC) ∨ b = 0xEE ∨ b = 0xEF then
      match rest with
      | c1 :: c2 :: r => isUtf8Cont c1 && isUtf8Cont c2 && isValidUtf8 r
      | _ => false
    else if b = 0xED then
      match rest with
      | c1 :: c2 :: r =>
        (decide (0x80 ≤ c1) && decide (c1 < 0xA0)) && isUtf8Cont c2 && isValidUtf8 r
      | _ => false
    else if b = 0xF0 then
      match rest with
      | c1 :: c2 :: c3 :: r =>
        (decide (0x90 ≤ c1) && decide (c1 < 0xC0)) && isUtf8Cont c2 && isUtf8Cont c3 &&
          isValidUtf8 r
      | _ => false
    else if 0xF1 ≤ b ∧ b ≤ 0xF3 then
      match rest with
      | c1 :: c2 :: c3 :: r => isUtf8Cont c1 && isUtf8Cont c2 && isUtf8Cont c3 && isValidUtf8 r
      | _ => false
    else if b = 0xF4 then
      match rest with
      | c1 :: c2 :: c3 :: r =>
        (decide (0x80 ≤ c1) && decide (c1 < 0x90)) && isUtf8Cont c2 && isUtf8Cont c3 &&
          isValidUtf8 r
      | _ => false
    else false

/-- `TableEntry::HANDLERS` (parser.rs lines 103-114): one parser per tag byte,
returning the entry and the number of payload bytes it consumed.  Tags ≥ 5
miss the handler array (`HANDLERS.get(tag)` is `None`). -/
def tableTypeHandler (tag : Nat) (x : List Nat) : Option (TableEntry × Nat) :=
  if tag = 0 then
    if 4 ≤ x.length then some (.integer (leNat (x.take 4)), 4) else none
  else if tag = 1 then
    if 8 ≤ x.length then some (.long (leNat (x.take 8)), 8) else none
  else if tag = 2 then
    if 4 ≤ x.length then some (.float (leNat (x.take 4)), 4) else none
  else if tag = 3 then
    if 8 ≤ x.length then some (.double (leNat (x.take 8)), 8) else none
  else if tag = 4 then
    if 4 ≤ x.length then
      let str_len := leNat (x.take 4)
      if 4 + str_len ≤ x.length then
        let str_bytes := (x.drop 4).take str_len
        if isValidUtf8 str_bytes then some (.string str_bytes, 4 + str_len) else none
      else none
    else none
  else none

/-- The constant pool is a vector of parsed entries (parser.rs `Table`). -/
abbrev Table := List TableEntry

/-- `Table::new` (parser.rs lines 125-150): parse exactly `count` entries
(tag byte then payload), failing on an exhausted stream, an unknown tag, or a
payload the handler cannot read. -/
def Table.new : Nat → List Nat → Option (Table × List Nat)
  | 0, remaining => some ([], remaining)
  | count + 1, remaining =>
    match remaining with
    | [] => none
    | tag :: res =>
      match tableTypeHandler tag res with
      | none => none
      | some (result, operands) =>
        if operands ≤ res.length then
          match Table.new count (res.drop operands) with
          | none => none
          | some (entries, rem) => some (result :: entries, rem)
        else none

/-- `Table::get` (parser.rs lines 152-155). -/
def Table.get (t : Table) (idx : Nat) : Option TableEntry :=
  t[idx]?

/-- `Directive` as parsed in parser.rs (lines 163-170). -/
inductive PDirective where
  | symbol (nameIndex descriptorIndex : Nat)
  | start
  | maxStack (x : Nat)
  | maxLocals (x : Nat)
  deriving DecidableEq

/-- Operand byte counts of `Directive::HANDLERS` (parser.rs lines 179-189):
8 for `Symbol`, 0 for `Start`, 2 for `MaxStack` and `MaxLocals`; sub-codes
≥ 4 miss the array. -/
def directiveOperandCount (sub : Nat) : Option Nat :=
  if sub = 0 then some 8
  else if sub = 1 then some 0
  else if sub = 2 then some 2
  else if sub = 3 then some 2
  else none

/-- Handler functions of `Directive::HANDLERS`.  Each is only ever applied to
exactly its operand count of bytes (the caller splits them off first), which
the length guards reflect. -/
def directiveHandler (sub : Nat) (x : List Nat) : Option PDirective :=
  if sub = 0 then
    if 8 ≤ x.length then
      some (.symbol (leNat (x.take 4)) (leNat ((x.drop 4).take 4)))
    else none
  else if sub = 1 then some .start
  else if sub = 2 then
    if 2 ≤ x.length then some (.maxStack (leNat (x.take 2))) else none
  else if sub = 3 then
    if 2 ≤ x.length then some (.maxLocals (leNat (x.take 2))) else none
  else none

/-- The directive-reading loop of `FunctionInfo::new` (parser.rs lines
241-258): while the stream starts with the directive opcode 254, read the
sub-code, reject a second `Symbol` (sub-code 0), parse the directive and
continue.  `fuel` bounds the loop; every iteration consumes at least two
bytes, so `remaining.length + 1` fuel can never run out. -/
def readDirectives : Nat → List Nat → Option (List PDirective × List Nat)
  | fuel + 1, 254 :: x :: res =>
    if x = 0 then none
    else
      match directiveOperandCount x with
      | none => none
      | some operand_count =>
        if operand_count ≤ res.length then
          match directiveHandler x (res.take operand_count) with
          | none => none
          | some d =>
            match readDirectives fuel (res.drop operand_count) with
            | none => none
            | some (ds, rem) => some (d :: ds, rem)
        else none
  | _ + 1, remaining => some ([], remaining)
  | 0, _ => none

/-- `FunctionInfo` (parser.rs lines 192-203). -/
structure FunctionInfo where
  directives : List PDirective
  code : List Nat
  deriving DecidableEq

/-- `FunctionInfo::new` (parser.rs lines 207-277): split off the 10-byte
`Symbol` directive (2-byte header + 8 operand bytes), check that its name
index refers to a `String` pool entry, read the remaining directives, then
split off `descriptor` (the code length) bytes of code. -/
def FunctionInfo.new (input : List Nat) (table : Table) :
    Option (FunctionInfo × List Nat) :=
  if 10 ≤ input.length then
    let symbol_directive := input.take 10
    let rem_dirs := input.drop 10
    let symbol_operands := symbol_directive.drop 2
    match directiveHandler 0 symbol_operands with
    | some (.symbol name_index descriptor) =>
      match Table.get table name_index with
      | some (.string _) =>
        match readDirectives (rem_dirs.length + 1) rem_dirs with
        | none => none
        | some (directives, remaining) =>
          if descriptor ≤ remaining.length then
            some (⟨directives, remaining.take descriptor⟩, remaining.drop descriptor)
          else none
      | _ => none
    | _ => none
  else none

/-- `FunctionInfo::get_all_functions` (parser.rs lines 279-292): read
functions while the stream starts with bytes `254, 0`.  `fuel` bounds the
loop; every parsed function consumes at least ten bytes, so
`input.length + 1` fuel can never run out. -/
def get_all_functions : Nat → List Nat → Table → Option (List FunctionInfo × List Nat)
  | fuel + 1, 254 :: 0 :: rest, table =>
    (match FunctionInfo.new (254 :: 0 :: rest) table with
     | none => none
     | some (f, rem) =>
       match get_all_functions fuel rem table with
       | none => none
       | some (fs, remaining) => some (f :: fs, remaining))
  | _ + 1, remaining, _ => some ([], remaining)
  | 0, _, _ => none

/-- `FileLayout` (parser.rs lines 49-56). -/
structure FileLayout where
  magic : Nat
  version : Nat
  constant_count : Nat
  constant_pool : Table
  functions : List FunctionInfo
  deriving DecidableEq

/-- `FileLayout::from_bytes` (parser.rs lines 61-78): read the 8-byte magic
(it is parsed and stored, nothing compares it against `MAGIC_NUMBER`), the
version byte, the constant count, the constant pool, then the function
records. -/
def FileLayout.from_bytes (input : List Nat) : Option FileLayout :=
  if 8 ≤ input.length then
    let magic := leNat (input.take 8)
    match input.drop 8 with
    | [] => none
    | version :: r2 =>
      if 4 ≤ r2.length then
        let constant_count := leNat (r2.take 4)
        let r3 := r2.drop 4
        match Table.new constant_count r3 with
        | none => none
        | some (constant_pool, r4) =>
          match get_all_functions (r4.length + 1) r4 constant_pool with
          | none => none
          | some (functions, _) =>
            some ⟨magic, version, constant_count, constant_pool, functions⟩
      else none
  else none

/-! ### Buddy allocator (memory/allocators/general.rs)

Pointers are modelled as addresses (`Nat`); each per-order intrusive free
list — a chain of `BlockHeader.next` pointers threaded through the first
word of each free block — is abstracted as the list of block addresses it
links, head first. -/

/-- `MIN_PAGE_ALIGNMENT = 4096` (memory/allocators/mod.rs line 6). -/
def MIN_PAGE_ALIGNMENT : Nat := 4096

/-- `AllocatorError` (memory/allocators/mod.rs lines 10-16, plus the
`BadRequest` value used by general.rs). -/
inductive AllocatorError where
  | invalidHeapSize
  | badLayout
  | failedInitialAllocation
  | badConstraints
  | badRequest
  deriving DecidableEq

/-- `GeneralAllocator<DEPTH>` (general.rs lines 14-21); the const generic
`DEPTH` is the `depth` field, always equal to `freelists.length`. -/
structure GeneralAllocator where
  base : Nat
  capacity : Nat
  depth : Nat
  freelists : List (List Nat)
  min_block_size : Nat
  deriving DecidableEq

/-- `usize::is_power_of_two`. -/
def isPowerOfTwo (n : Nat) : Bool :=
  decide (n ≠ 0) && (n &&& (n - 1) == 0)

/-- Halving loop behind `ilog2`; the fuel argument (the number itself
suffices) only makes the recursion structural. -/
def ilog2Aux : Nat → Nat → Nat
  | 0, _ => 0
  | fuel + 1, n => if 2 ≤ n then ilog2Aux fuel (n / 2) + 1 else 0

/-- `usize::ilog2`: floor of the base-2 logarithm (0 on inputs ≤ 1). -/
def ilog2 (n : Nat) : Nat := ilog2Aux n n

/-- `usize::next_power_of_two` (1 for inputs ≤ 1). -/
def nextPowerOfTwo (n : Nat) : Nat :=
  if n ≤ 1 then 1 else 2 ^ (ilog2 (n - 1) + 1)

/-- `GeneralAllocator::new` (general.rs lines 38-62): derive
`min_block_size = capacity >> (DEPTH - 1)`, check the construction
constraints, and start with a single free block at the top order rooted at
`base` (`size_of::<BlockHeader>() = 8`). -/
def GeneralAllocator.new (base capacity depth : Nat) :
    Except AllocatorError GeneralAllocator :=
  let min_block_size := capacity >>> (depth - 1)
  if base &&& (MIN_PAGE_ALIGNMENT - 1) ≠ 0 then .error .badConstraints
  else if capacity < min_block_size then .error .badConstraints
  else if min_block_size < 8 then .error .badConstraints
  else if ¬ isPowerOfTwo capacity then .error .badConstraints
  else .ok ⟨base, capacity, depth,
    (List.replicate depth ([] : List Nat)).set (depth - 1) [base], min_block_size⟩

/-- `GeneralAllocator::get_allocation_size` (general.rs lines 133-148). -/
def GeneralAllocator.get_allocation_size (a : GeneralAllocator)
    (in_size alignment : Nat) : Except AllocatorError Nat :=
  if ¬ isPowerOfTwo alignment then .error .badRequest
  else if MIN_PAGE_ALIGNMENT < alignment then .error .badRequest
  else
    let size := if alignment > in_size then alignment else in_size
    let size := nextPowerOfTwo (max size a.min_block_size)
    if size ≤ a.capacity then .ok size else .error .badRequest

/-- `GeneralAllocator::get_allocation_order` (general.rs lines 150-154). -/
def GeneralAllocator.get_allocation_order (a : GeneralAllocator)
    (size align : Nat) : Except AllocatorError Nat :=
  (a.get_allocation_size size align).map
    (fun x => ilog2 x - ilog2 a.min_block_size)

/-- `GeneralAllocator::get_required_block_size` (general.rs lines 156-159). -/
def GeneralAllocator.get_required_block_size (a : GeneralAllocator) (order : Nat) : Nat :=
  1 <<< (ilog2 a.min_block_size + order)

/-- `GeneralAllocator::block_pop` (general.rs lines 161-176): take the head
of the order's free list; at the top order the whole list is cleared (the
source stores `None` instead of reading the head's `next` link), otherwise
the head's `next` chain — the tail — remains. -/
def GeneralAllocator.block_pop (a : GeneralAllocator) (order : Nat) :
    Option Nat × GeneralAllocator :=
  match a.freelists.getD order [] with
  | [] => (none, a)
  | blk :: tail =>
    if order = a.freelists.length - 1 then
      (some blk, { a with freelists := a.freelists.set order [] })
    else
      (some blk, { a with freelists := a.freelists.set order tail })

/-- `GeneralAllocator::block_insert` (general.rs lines 178-188): push the
block on the front of the order's free list. -/
def GeneralAllocator.block_insert (a : GeneralAllocator) (order : Nat) (block : Nat) :
    GeneralAllocator :=
  { a with freelists := a.freelists.set order (block :: a.freelists.getD order []) }

/-- Removal of the first occurrence of `block` from a chained free list
(`None` when absent). -/
def removeFirst (block : Nat) : List Nat → Option (List Nat)
  | [] => none
  | p :: rest => if p = block then some rest else (removeFirst block rest).map (p :: ·)

/-- `GeneralAllocator::block_remove` (general.rs lines 190-207): walk the
order's chain, unlink `block` if present and report whether it was found. -/
def GeneralAllocator.block_remove (a : GeneralAllocator) (order : Nat) (block : Nat) :
    Bool × GeneralAllocator :=
  match removeFirst block (a.freelists.getD order []) with
  | none => (false, a)
  | some l => (true, { a with freelists := a.freelists.set order l })

/-- The `while (order >> index) > target` loop of
`GeneralAllocator::split_block` (general.rs lines 209-221): each pass
increments `index`, computes `split = block + (block_size >> index)` and
inserts it at order `order - index`.  `fuel = order + 2` suffices because
`order >> index` reaches 0 within that many increments. -/
def splitLoop (block block_size order target : Nat) :
    Nat → Nat → GeneralAllocator → GeneralAllocator
  | 0, _, a => a
  | fuel + 1, index, a =>
    if (order >>> index) > target then
      let index := index + 1
      let split := block + (block_size >>> index)
      splitLoop block block_size order target fuel index
        (a.block_insert (order - index) split)
    else a

/-- `GeneralAllocator::split_block` (general.rs lines 209-221). -/
def GeneralAllocator.split_block (a : GeneralAllocator) (block order target : Nat) :
    GeneralAllocator :=
  splitLoop block (a.get_required_block_size order) order target (order + 2) 0 a

/-- `GeneralAllocator::find_buddy` (general.rs lines 223-231): XOR the
base-relative address with the order's block size; no buddy at the top order
(`size < capacity` fails). -/
def GeneralAllocator.find_buddy (a : GeneralAllocator) (order : Nat) (block : Nat) :
    Option Nat :=
  let relative := block - a.base
  let size := a.get_required_block_size order
  if size < a.capacity then some (a.base + (relative ^^^ size)) else none

/-- The `(target..DEPTH)` search of `GeneralAllocator::raw_alloc` (general.rs
lines 78-97): pop the first non-empty order at or above the target, splitting
the block down when it came from a higher order. -/
def allocLoop (target depth : Nat) :
    Nat → Nat → GeneralAllocator → Option Nat × GeneralAllocator
  | 0, _, a => (none, a)
  | fuel + 1, order, a =>
    if order < depth then
      match a.block_pop order with
      | (some block, a2) =>
        if order > target then (some block, a2.split_block block order target)
        else (some block, a2)
      | (none, a2) => allocLoop target depth fuel (order + 1) a2
    else (none, a)

/-- `GeneralAllocator::raw_alloc` (general.rs lines 78-97); the fuel
`depth + 1` covers every index of the `(target..DEPTH)` range. -/
def GeneralAllocator.raw_alloc (a : GeneralAllocator) (size align : Nat) :
    Option Nat × GeneralAllocator :=
  match a.get_allocation_order size align with
  | .error _ => (none, a)
  | .ok target => allocLoop target a.depth (a.depth + 1) target a

/-- The coalescing loop of `GeneralAllocator::raw_dealloc` (general.rs lines
113-126).  At each order it computes the buddy address, but the membership
test and removal are `self.block_remove(order, block)` — on the block being
freed, not on the buddy — so the coalescing branch is taken only when the
freed block itself is already on the free list. -/
def deallocLoop (depth : Nat) : Nat → Nat → Nat → GeneralAllocator → GeneralAllocator
  | 0, _, _, a => a
  | fuel + 1, order, block, a =>
    if order < depth then
      match a.find_buddy order block with
      | some buddy =>
        match a.block_remove order block with
        | (true, a2) => deallocLoop depth fuel (order + 1) (min block buddy) a2
        | (false, a2) => a2.block_insert order block
      | none => a.block_insert order block
    else a

/-- `GeneralAllocator::raw_dealloc` (general.rs lines 107-126); a request
whose size/align does not map to an order panics through `.expect`; the fuel
`depth + 1` covers every index of the `initial..DEPTH` range. -/
def GeneralAllocator.raw_dealloc (a : GeneralAllocator) (ptr size align : Nat) :
    Panics GeneralAllocator :=
  match a.get_allocation_order size align with
  | .error _ => .panic "Invalid Block Deallocation Request"
  | .ok initial => .ok (deallocLoop a.depth (a.depth + 1) initial ptr a)

/-! ## Theorems

Shared helper lemmas first, then one theorem per claim (with witnesses for
the theorems that carry hypotheses). -/

/-- A `push` that returns `true` without panicking wrote its value at the old
top-of-stack slot and advanced the stack pointer by one, leaving both bases
and the store length unchanged. -/
theorem push_eq_ok_true {f : StackFrame} {v : Nat} {f' : StackFrame}
    (h : f.push v = .ok (true, f')) :
    f'.stack_pointer = f.stack_pointer + 1 ∧
    f'.stack_base = f.stack_base ∧
    f'.store.getD (f.stack_base + f.stack_pointer) 0 = v := by
  unfold StackFrame.push at h
  split at h
  · exact absurd h (by simp)
  · split at h
    · rename_i hidx
      simp only [Panics.ok.injEq, Prod.mk.injEq, true_and] at h
      subst h
      refine ⟨rfl, rfl, ?_⟩
      simp only
      rw [List.getD_eq_getElem _ _ (by simpa using hidx)]
      exact List.getElem_set_self _
    · exact absurd h (by simp)

/-- `binop` on a frame whose operand stack holds exactly `v2` below the top
entry `v1`: it pops `v1` first, `v2` second, and pushes `op v1 v2`. -/
theorem binop_two (op : Nat → Nat → Panics Nat) (v1 v2 r : Nat)
    (hop : op v1 v2 = .ok r) :
    binopHandler op ⟨[v2, v1], 0, 0, 2, 2⟩ = .ok .next ⟨[r, v1], 0, 0, 1, 2⟩ := by
  simp [binopHandler, StackFrame.pop, StackFrame.push, List.getD, hop]

/-- C1.  The Runner's loop advances the program counter by exactly 1 on
`Next`, not by `1 + operand_byte_count`, so operand bytes are re-executed as
opcodes.  Run on code `[ld.arg 1, ret]` (bytes `[16, 1, 25]`) with a frame
holding locals `[0, 5]` and an empty 2-slot operand stack: `ld.arg 1` pushes
local 1 (the value 5) and yields `Next`; the Runner then sets `pc = 1`, where
the operand byte 1 is executed as opcode `i.const.0` and pushes an extra 0;
byte 25 (`ret`) then ends the run.  The final frame has two operand entries
(`stack_pointer = 2`) instead of the one entry the claim's advance rule
(`pc = 0` to `pc = 2`) would produce. -/
theorem c1_runner_advances_by_one :
    runLoop zeroFloatOps [16, 1, 25] ⟨[]⟩ 10 0 ⟨[0, 5, 0, 0], 0, 2, 0, 4⟩ =
      .ok ⟨[0, 5, 5, 0], 0, 2, 2, 4⟩ := by
  decide

/-- C2.  The overflow check of `StackFrame::push` is `stack_pointer > size`
instead of `≥`.  On a frame of operand capacity `size = 1` that is already
full (`stack_pointer = 1`, one entry `5`), pushing `6` returns `true`, writes
the backing store at index 1 and leaves `stack_pointer = 2 > size = 1` —
refuting both the `stack_pointer ≤ size` invariant and the claim that a push
on a full stack returns `false` without writing. -/
theorem c2_push_full_stack_writes :
    StackFrame.push ⟨[5, 0], 0, 0, 1, 1⟩ 6 = .ok (true, ⟨[5, 6], 0, 0, 2, 1⟩) := by
  decide

/-- C3.  The `i.div` handler is `binop::<u64>` over the plain `/` operator:
no `IllegalParam` is ever produced.  With dividend 5 pushed first and divisor
0 on top (operand stack `[5, 0]`), the handler pops the 0 first and computes
`0 / 5 = 0`, returning `Ok(Next)` with 0 pushed; with both entries 0 the
division panics the process (`attempt to divide by zero`) instead of
returning an error. -/
theorem c3_idiv_returns_no_illegalparam :
    (exec_instruction zeroFloatOps [36] ⟨[5, 0], 0, 0, 2, 2⟩ ⟨[]⟩ =
      .ok .next ⟨[0, 0], 0, 0, 1, 2⟩) ∧
    (exec_instruction zeroFloatOps [36] ⟨[0, 0], 0, 0, 2, 2⟩ ⟨[]⟩ =
      .panic "attempt to divide by zero") := by
  constructor <;> decide

/-- C4 counterexample.  Executing the directive opcode 254 panics in the
`Unimplemented` debug handler, and executing the unassigned byte 100 panics
at the `assert!(opcode == handler_info.opcode)` self-check (its table entry
carries opcode field 255); neither returns `Err(IllegalOpcode)`. -/
theorem c4_counterexample_panics_not_illegalopcode :
    (exec_instruction zeroFloatOps [254] ⟨[], 0, 0, 0, 0⟩ ⟨[]⟩ =
      .panic "Opcode not implemented") ∧
    (exec_instruction zeroFloatOps [100] ⟨[], 0, 0, 0, 0⟩ ⟨[]⟩ =
      .panic "HANDLERS Array invalid: misaligned opcode") ∧
    (exec_instruction zeroFloatOps [254] ⟨[], 0, 0, 0, 0⟩ ⟨[]⟩ ≠
      .err .illegalOpcode ⟨[], 0, 0, 0, 0⟩) := by
  refine ⟨by decide, by decide, by decide⟩

/-- C4 amended.  For every opcode byte that is not an assigned instruction
(52-253) and for the directive opcode 254 and the byte 255,
`exec_instruction` panics instead of returning `IllegalOpcode`: bytes 52-253
fail the handler-table self-check assertion, and 254/255 reach the
`Unimplemented` debug handler's `panic!`.  `Err(IllegalOpcode)` is
unreachable for byte values. -/
theorem c4_amended_unassigned_panics (fops : FloatOps) (b : Nat) (rest : List Nat)
    (f : StackFrame) (ct : ConstantTable) (h1 : 52 ≤ b) (h2 : b ≤ 255) :
    exec_instruction fops (b :: rest) f ct =
      .panic (if b ≤ 253 then "HANDLERS Array invalid: misaligned opcode"
              else "Opcode not implemented") := by
  have hpc : paramCount b = 0 := by
    unfold paramCount
    rw [if_neg (by omega), if_neg (by omega), if_neg (by omega),
      if_neg (by omega), if_neg (by omega)]
  by_cases h3 : b ≤ 253
  · have hexp : expectedOpcode b = 255 := by
      unfold expectedOpcode
      rw [if_neg (by omega), if_neg (by omega)]
    rw [if_pos h3]
    simp only [exec_instruction]
    rw [if_neg (by omega), hpc, if_neg (by omega), if_pos (by omega : b ≠ expectedOpcode b)]
  · have : b = 254 ∨ b = 255 := by omega
    rw [if_neg h3]
    rcases this with rfl | rfl <;> rfl

/-- C4 witness: the amended theorem applied at byte 254 with an empty frame
and constant table. -/
theorem c4_amended_witness :
    exec_instruction zeroFloatOps [254] ⟨[], 0, 0, 0, 0⟩ ⟨[]⟩ =
      .panic "Opcode not implemented" :=
  c4_amended_unassigned_panics zeroFloatOps 254 [] ⟨[], 0, 0, 0, 0⟩ ⟨[]⟩
    (by decide) (by decide)

/-- C5.  `FileLayout::from_bytes` parses the 8-byte magic field but never
compares it with `MAGIC_NUMBER`: the 13-byte image of all zeros — whose
first 8 bytes are not `b"azimuth\0"` — parses successfully (magic 0,
version 0, empty constant pool, no functions). -/
theorem c5_magic_never_checked :
    (FileLayout.from_bytes (List.replicate 13 0) = some ⟨0, 0, 0, [], []⟩) ∧
    (List.replicate 13 0).take 8 ≠ MAGIC_STRING ∧ (0 : Nat) ≠ MAGIC_NUMBER := by
  refine ⟨by decide, by decide, by decide⟩

/-- C6.  `raw_dealloc` calls `block_remove(order, block)` on the block being
freed instead of on its buddy, so the coalescing branch is never taken for a
legitimate free.  Concretely (base 4096, capacity 8192, `DEPTH = 2`,
`min_block_size = 4096`): the fresh allocator has free lists
`[[], [4096]]`; allocating 4096 bytes splits the top block and leaves
`[[8192], []]`; freeing the returned block 4096 computes its buddy 8192,
fails to remove 4096 (the buddy 8192 — present in the order-0 list — is not
removed), and just prepends 4096, ending with `[[4096, 8192], []]` instead of
restoring the initial `[[], [4096]]` after this balanced sequence. -/
theorem c6_dealloc_never_coalesces :
    (GeneralAllocator.new 4096 8192 2 =
      Except.ok ⟨4096, 8192, 2, [[], [4096]], 4096⟩) ∧
    ((GeneralAllocator.mk 4096 8192 2 [[], [4096]] 4096).raw_alloc 4096 1 =
      (some 4096, ⟨4096, 8192, 2, [[8192], []], 4096⟩)) ∧
    ((GeneralAllocator.mk 4096 8192 2 [[8192], []] 4096).raw_dealloc 4096 4096 1 =
      .ok ⟨4096, 8192, 2, [[4096, 8192], []], 4096⟩) ∧
    ([[4096, 8192], []] ≠ ([[], [4096]] : List (List Nat))) := by
  refine ⟨rfl, by decide, by decide, by decide⟩

/-- C7.  `exec_instruction` hands every handler the whole remaining stream
(`params: operands`), not a `param_count`-byte prefix, and the length guard
of `push_bytes` is inverted (`<=` where its own documentation requires `>`).
Consequently `i.const` never pushes: with at most 8 bytes after the opcode it
returns `Err(IllegalParam)`, and with more it panics in the slice copy.
`i.const.w` fails the same way. -/
theorem c7_iconst_never_pushes :
    (exec_instruction zeroFloatOps [9, 5] ⟨[0, 0], 0, 0, 0, 2⟩ ⟨[]⟩ =
      .err .illegalParam ⟨[0, 0], 0, 0, 0, 2⟩) ∧
    (exec_instruction zeroFloatOps [9, 5, 0, 0, 0, 0, 0, 0, 0, 0] ⟨[0, 0], 0, 0, 0, 2⟩ ⟨[]⟩ =
      .panic "range end index out of range") ∧
    (exec_instruction zeroFloatOps [10, 5, 7] ⟨[0, 0], 0, 0, 0, 2⟩ ⟨[]⟩ =
      .err .illegalParam ⟨[0, 0], 0, 0, 0, 2⟩) := by
  refine ⟨by decide, by decide, by decide⟩

/-- C8.  `StackFrame::peek` reads `stack[stack_base + stack_pointer]` without
the `- 1`, so it returns the slot one above the top entry, not the value
`pop` would return.  On a frame holding the single entry 1 (store
`[1, 0, 0, 0]`, `stack_pointer = 1`), `peek` yields `Some(0)` while `pop`
yields `Some(1)`; consequently `dup` pushes that stale 0, not a copy of the
top. -/
theorem c8_peek_misses_top :
    (StackFrame.peek ⟨[1, 0, 0, 0], 0, 0, 1, 4⟩ = .ok (some 0)) ∧
    (StackFrame.pop ⟨[1, 0, 0, 0], 0, 0, 1, 4⟩ =
      .ok (some (1, ⟨[1, 0, 0, 0], 0, 0, 0, 4⟩))) ∧
    (exec_instruction zeroFloatOps [23] ⟨[1, 0, 0, 0], 0, 0, 1, 4⟩ ⟨[]⟩ =
      .ok .next ⟨[1, 0, 0, 0], 0, 0, 2, 4⟩) := by
  refine ⟨by decide, by decide, by decide⟩

/-- Unwrapping of `push_entry`'s result wrapper: a successful wrapped push is
a successful raw push. -/
theorem pushWrap_eq {f : StackFrame} {v : Nat} {f' : StackFrame}
    (h : (match f.push v with
          | .ok (b, f2) => Panics.ok (some (b, f2))
          | .panic m => Panics.panic m) = Panics.ok (some (true, f'))) :
    f.push v = .ok (true, f') := by
  cases hpv : f.push v with
  | ok bf =>
    obtain ⟨b, f2⟩ := bf
    rw [hpv] at h
    simp only [Panics.ok.injEq, Option.some.injEq, Prod.mk.injEq] at h
    rw [h.1, h.2]
  | panic m =>
    rw [hpv] at h
    exact absurd h (by simp)

/-- C9.  Whenever `ConstantTable::push_entry` pushes constant `c`
successfully, the resulting top-of-stack bits are: for `Int32(x)` the low 32
bits equal `x` and the high 32 bits are zero; for `Float32` the low 32 bits
equal the IEEE-754 bit pattern (`to_bits`) and the high 32 bits are zero; for
`Float64` the bits equal the `f64` bit pattern; for `Int64(x)` the bits equal
`x`. -/
theorem c9_const_roundtrip_bits (t : ConstantTable) (f f' : StackFrame) (i : Nat)
    (c : Constant) (hc : t.get_entry i = some c)
    (hp : t.push_entry f i = .ok (some (true, f'))) :
    (∀ x, c = .unsigned32 x → x < 2 ^ 32 →
      f'.topValue % 2 ^ 32 = x ∧ f'.topValue / 2 ^ 32 = 0) ∧
    (∀ b, c = .float32 b → b < 2 ^ 32 →
      f'.topValue % 2 ^ 32 = b ∧ f'.topValue / 2 ^ 32 = 0) ∧
    (∀ b, c = .float64 b → f'.topValue = b) ∧
    (∀ x, c = .unsigned64 x → f'.topValue = x) := by
  unfold ConstantTable.push_entry at hp
  rw [hc] at hp
  have topOf : ∀ v : Nat, f.push v = .ok (true, f') → f'.topValue = v := by
    intro v hv
    obtain ⟨hsp, hsb, hval⟩ := push_eq_ok_true hv
    unfold StackFrame.topValue
    rw [hsp, hsb]
    simpa using hval
  cases c with
  | unsigned32 x =>
    have htop := topOf x (pushWrap_eq hp)
    refine ⟨?_, ?_, ?_, ?_⟩
    · rintro y ⟨⟩ hy
      rw [htop]
      exact ⟨Nat.mod_eq_of_lt hy, Nat.div_eq_of_lt hy⟩
    · rintro b ⟨⟩
    · rintro b ⟨⟩
    · rintro y ⟨⟩
  | unsigned64 x =>
    have htop := topOf x (pushWrap_eq hp)
    refine ⟨?_, ?_, ?_, ?_⟩
    · rintro y ⟨⟩
    · rintro b ⟨⟩
    · rintro b ⟨⟩
    · rintro y ⟨⟩; exact htop
  | float32 bits =>
    have htop := topOf bits (pushWrap_eq hp)
    refine ⟨?_, ?_, ?_, ?_⟩
    · rintro y ⟨⟩
    · rintro b ⟨⟩ hy
      rw [htop]
      exact ⟨Nat.mod_eq_of_lt hy, Nat.div_eq_of_lt hy⟩
    · rintro b ⟨⟩
    · rintro y ⟨⟩
  | float64 bits =>
    have htop := topOf bits (pushWrap_eq hp)
    refine ⟨?_, ?_, ?_, ?_⟩
    · rintro y ⟨⟩
    · rintro b ⟨⟩
    · rintro b ⟨⟩; exact htop
    · rintro y ⟨⟩
  | string ptr =>
    refine ⟨?_, ?_, ?_, ?_⟩
    · rintro y ⟨⟩
    · rintro b ⟨⟩
    · rintro b ⟨⟩
    · rintro y ⟨⟩

/-- C9 witness: pushing the `Int32` constant 7 from a one-entry table onto an
empty one-slot frame puts 7 in the low 32 bits of the top entry. -/
theorem c9_witness :
    (ConstantTable.push_entry ⟨[Constant.unsigned32 7]⟩ ⟨[0], 0, 0, 0, 1⟩ 0 =
      .ok (some (true, ⟨[7], 0, 0, 1, 1⟩))) ∧
    StackFrame.topValue ⟨[7], 0, 0, 1, 1⟩ % 2 ^ 32 = 7 :=
  ⟨by decide,
   ((c9_const_roundtrip_bits ⟨[Constant.unsigned32 7]⟩ ⟨[0], 0, 0, 0, 1⟩
      ⟨[7], 0, 0, 1, 1⟩ 0 (Constant.unsigned32 7) (by decide) (by decide)).1
      7 rfl (by norm_num)).1⟩

/-- C10.  Every two-operand arithmetic, bitwise or shift handler pops `v1`
(the old top of stack) first and `v2` (the entry below it) second, and pushes
`op(v1, v2)` with `v1` as the left operand: `i.sub` pushes `v1 - v2` (top
minus second), `i.div`/`i.rem` divide the old top by the second-popped entry,
`shl`/`shr`/`ashr` shift the old top by the second-popped entry, and the
float handlers apply their IEEE operation (any `FloatOps`) to the truncated
top first.  Stated on a frame whose operand stack is exactly `[v2, v1]` with
`v1` on top; the conjuncts whose Rust operators panic or wrap outside a
domain (`-` underflow, `+`/`*` overflow, `/`/`%` by zero, shifts ≥ 64) carry
the hypotheses keeping them inside it. -/
theorem c10_binop_operand_order (fops : FloatOps) (v1 v2 : Nat)
    (hv1 : v1 < 2 ^ 64) (hv2 : v2 < 2 ^ 64) :
    (v1 + v2 < 2 ^ 64 →
      exec_instruction fops [27] ⟨[v2, v1], 0, 0, 2, 2⟩ ⟨[]⟩ =
        .ok .next ⟨[v1 + v2, v1], 0, 0, 1, 2⟩) ∧
    (v2 ≤ v1 →
      exec_instruction fops [30] ⟨[v2, v1], 0, 0, 2, 2⟩ ⟨[]⟩ =
        .ok .next ⟨[v1 - v2, v1], 0, 0, 1, 2⟩) ∧
    (v1 * v2 < 2 ^ 64 →
      exec_instruction fops [33] ⟨[v2, v1], 0, 0, 2, 2⟩ ⟨[]⟩ =
        .ok .next ⟨[v1 * v2, v1], 0, 0, 1, 2⟩) ∧
    (v2 ≠ 0 →
      exec_instruction fops [36] ⟨[v2, v1], 0, 0, 2, 2⟩ ⟨[]⟩ =
        .ok .next ⟨[v1 / v2, v1], 0, 0, 1, 2⟩) ∧
    (v2 ≠ 0 →
      exec_instruction fops [39] ⟨[v2, v1], 0, 0, 2, 2⟩ ⟨[]⟩ =
        .ok .next ⟨[v1 % v2, v1], 0, 0, 1, 2⟩) ∧
    (v2 < 64 →
      exec_instruction fops [45] ⟨[v2, v1], 0, 0, 2, 2⟩ ⟨[]⟩ =
        .ok .next ⟨[(v1 <<< v2) % 2 ^ 64, v1], 0, 0, 1, 2⟩) ∧
    (v2 < 64 →
      exec_instruction fops [46] ⟨[v2, v1], 0, 0, 2, 2⟩ ⟨[]⟩ =
        .ok .next ⟨[v1 >>> v2, v1], 0, 0, 1, 2⟩) ∧
    (v2 < 64 →
      exec_instruction fops [47] ⟨[v2, v1], 0, 0, 2, 2⟩ ⟨[]⟩ =
        .ok .next ⟨[fromI64 (Int.fdiv (toI64 v1) (2 ^ v2)), v1], 0, 0, 1, 2⟩) ∧
    (exec_instruction fops [48] ⟨[v2, v1], 0, 0, 2, 2⟩ ⟨[]⟩ =
      .ok .next ⟨[v1 &&& v2, v1], 0, 0, 1, 2⟩) ∧
    (exec_instruction fops [49] ⟨[v2, v1], 0, 0, 2, 2⟩ ⟨[]⟩ =
      .ok .next ⟨[v1 ||| v2, v1], 0, 0, 1, 2⟩) ∧
    (exec_instruction fops [50] ⟨[v2, v1], 0, 0, 2, 2⟩ ⟨[]⟩ =
      .ok .next ⟨[v1 ^^^ v2, v1], 0, 0, 1, 2⟩) ∧
    (exec_instruction fops [28] ⟨[v2, v1], 0, 0, 2, 2⟩ ⟨[]⟩ =
      .ok .next ⟨[fops.f4add (v1 % 2 ^ 32) (v2 % 2 ^ 32) % 2 ^ 32, v1], 0, 0, 1, 2⟩) ∧
    (exec_instruction fops [31] ⟨[v2, v1], 0, 0, 2, 2⟩ ⟨[]⟩ =
      .ok .next ⟨[fops.f4sub (v1 % 2 ^ 32) (v2 % 2 ^ 32) % 2 ^ 32, v1], 0, 0, 1, 2⟩) ∧
    (exec_instruction fops [34] ⟨[v2, v1], 0, 0, 2, 2⟩ ⟨[]⟩ =
      .ok .next ⟨[fops.f4mul (v1 % 2 ^ 32) (v2 % 2 ^ 32) % 2 ^ 32, v1], 0, 0, 1, 2⟩) ∧
    (exec_instruction fops [37] ⟨[v2, v1], 0, 0, 2, 2⟩ ⟨[]⟩ =
      .ok .next ⟨[fops.f4div (v1 % 2 ^ 32) (v2 % 2 ^ 32) % 2 ^ 32, v1], 0, 0, 1, 2⟩) ∧
    (exec_instruction fops [40] ⟨[v2, v1], 0, 0, 2, 2⟩ ⟨[]⟩ =
      .ok .next ⟨[fops.f4rem (v1 % 2 ^ 32) (v2 % 2 ^ 32) % 2 ^ 32, v1], 0, 0, 1, 2⟩) ∧
    (exec_instruction fops [29] ⟨[v2, v1], 0, 0, 2, 2⟩ ⟨[]⟩ =
      .ok .next ⟨[fops.f8add v1 v2 % 2 ^ 64, v1], 0, 0, 1, 2⟩) ∧
    (exec_instruction fops [32] ⟨[v2, v1], 0, 0, 2, 2⟩ ⟨[]⟩ =
      .ok .next ⟨[fops.f8sub v1 v2 % 2 ^ 64, v1], 0, 0, 1, 2⟩) ∧
    (exec_instruction fops [35] ⟨[v2, v1], 0, 0, 2, 2⟩ ⟨[]⟩ =
      .ok .next ⟨[fops.f8mul v1 v2 % 2 ^ 64, v1], 0, 0, 1, 2⟩) ∧
    (exec_instruction fops [38] ⟨[v2, v1], 0, 0, 2, 2⟩ ⟨[]⟩ =
      .ok .next ⟨[fops.f8div v1 v2 % 2 ^ 64, v1], 0, 0, 1, 2⟩) ∧
    (exec_instruction fops [41] ⟨[v2, v1], 0, 0, 2, 2⟩ ⟨[]⟩ =
      .ok .next ⟨[fops.f8rem v1 v2 % 2 ^ 64, v1], 0, 0, 1, 2⟩) := by
  refine ⟨?_, ?_, ?_, ?_, ?_, ?_, ?_, ?_, ?_, ?_, ?_, ?_, ?_, ?_, ?_, ?_, ?_, ?_, ?_, ?_, ?_⟩
  · intro h
    exact binop_two iaddOp v1 v2 (v1 + v2)
      (by simp only [iaddOp, Panics.ok.injEq]; omega)
  · intro h
    exact binop_two isubOp v1 v2 (v1 - v2)
      (by simp only [isubOp, Panics.ok.injEq]; omega)
  · intro h
    exact binop_two imulOp v1 v2 (v1 * v2)
      (by simp only [imulOp, Panics.ok.injEq]; exact Nat.mod_eq_of_lt h)
  · intro h
    exact binop_two idivOp v1 v2 (v1 / v2) (by simp [idivOp, h])
  · intro h
    exact binop_two iremOp v1 v2 (v1 % v2) (by simp [iremOp, h])
  · intro h
    exact binop_two shlOp v1 v2 ((v1 <<< v2) % 2 ^ 64)
      (by simp only [shlOp, Panics.ok.injEq]; rw [Nat.mod_eq_of_lt h])
  · intro h
    exact binop_two shrOp v1 v2 (v1 >>> v2)
      (by simp only [shrOp, Panics.ok.injEq]; rw [Nat.mod_eq_of_lt h])
  · intro h
    exact binop_two ashrOp v1 v2 (fromI64 (Int.fdiv (toI64 v1) (2 ^ v2)))
      (by simp only [ashrOp, Panics.ok.injEq]; rw [Nat.mod_eq_of_lt h])
  · exact binop_two andOp v1 v2 (v1 &&& v2) rfl
  · exact binop_two orOp v1 v2 (v1 ||| v2) rfl
  · exact binop_two xorOp v1 v2 (v1 ^^^ v2) rfl
  · exact binop_two (f4bin fops.f4add) v1 v2 _ rfl
  · exact binop_two (f4bin fops.f4sub) v1 v2 _ rfl
  · exact binop_two (f4bin fops.f4mul) v1 v2 _ rfl
  · exact binop_two (f4bin fops.f4div) v1 v2 _ rfl
  · exact binop_two (f4bin fops.f4rem) v1 v2 _ rfl
  · exact binop_two (f8bin fops.f8add) v1 v2 _ rfl
  · exact binop_two (f8bin fops.f8sub) v1 v2 _ rfl
  · exact binop_two (f8bin fops.f8mul) v1 v2 _ rfl
  · exact binop_two (f8bin fops.f8div) v1 v2 _ rfl
  · exact binop_two (f8bin fops.f8rem) v1 v2 _ rfl

/-- C10 witness: `i.div` on operand stack `[2, 9]` (9 on top) computes
`9 / 2 = 4` — the old top divided by the second-popped entry. -/
theorem c10_witness :
    exec_instruction zeroFloatOps [36] ⟨[2, 9], 0, 0, 2, 2⟩ ⟨[]⟩ =
      .ok .next ⟨[4, 9], 0, 0, 1, 2⟩ :=
  (c10_binop_operand_order zeroFloatOps 9 2 (by norm_num) (by norm_num)).2.2.2.1
    (by norm_num)

end Azimuth
